import Mathlib

/-
Verification of the bubblegum_nifs instruction/transaction construction core
(src/native/bubblegum_nifs/src/core.rs and src/native/bubblegum_nifs/src/utils.rs)
against its natural-language specification.

Modelling conventions:
  - Rust byte buffers (Vec<u8>, [u8; 32]) are `List Nat`, each element < 256 where
    it matters; machine integers (u8/u16/u32/u64) are `Nat` (no builder performs
    arithmetic on them, so no overflow modelling is needed).
  - Fallible Rust functions returning NifResult<T> become `Except String T`; the
    String is exactly the message the source wraps in Error::Term(Box::new(...)).
  - Cryptographic primitives (SHA-256 PDA search, ed25519 point validity and
    signing) are external to the source under verification; program-derived
    addresses are embedded symbolically as dedicated injective constructors of
    `Pubkey`, each recording the derivation seeds family and owner program that
    the source requests.  Base58 text decoding (solana Pubkey::from_str and
    Hash::from_str) is embedded concretely and executably.
  - Keypair::from_bytes (ed25519_dalek) requires 64 bytes of secret||public and
    additionally that the public half decodes to a curve point; the curve check
    is cryptographic and is not modelled, so the model accepts a superset of the
    keypairs the code accepts.  Every claim proved over successful calls of the
    model therefore also holds over the (fewer) successful calls of the code,
    and every failure forced by the model is forced in the code as well.
-/

deriving instance DecidableEq for Except

/-- Ledger addresses.  `ofBytes` is a concrete 32-byte key (the result of
base58 parsing).  The remaining constructors are the program-derived addresses
the source requests; each stands for `Pubkey::find_program_address` with the
seed family and owning program named in its comment.  The underlying SHA-256
bump search is cryptographic and deterministic, so it is embedded as an
injective symbolic constructor. -/
inductive Pubkey where
  /-- Raw 32-byte key obtained by base58-decoding a textual address. -/
  | ofBytes (bytes : List Nat)
  /-- TreeConfig::find_pda: seeds [merkle_tree.as_ref()] under mpl_bubblegum::ID. -/
  | treeConfigPda (merkle_tree : Pubkey)
  /-- Metadata::find_pda: seeds [b"metadata", mpl_token_metadata::ID, mint] under
  mpl_token_metadata::ID (the token-metadata program's published metadata seeds). -/
  | metadataPda (mint : Pubkey)
  /-- MasterEdition::find_pda: seeds [b"metadata", mpl_token_metadata::ID, mint,
  b"edition"] under mpl_token_metadata::ID (published master-edition seeds). -/
  | masterEditionPda (mint : Pubkey)
  /-- Pubkey::find_program_address([b"collection_cpi"], mpl_bubblegum::ID),
  from core.rs lines 328-330. -/
  | collectionCpiSigner
deriving DecidableEq, Repr

/-- Base58 alphabet used by the ledger's textual key encoding (bs58 crate). -/
def b58Alphabet : List Char :=
  "123456789ABCDEFGHJKLMNPQRSTUVWXYZabcdefghijkmnopqrstuvwxyz".toList

/-- Index of a character in a character list, as an Option. -/
def charIndexIn : List Char → Char → Option Nat
  | [], _ => none
  | a :: rest, c => if a = c then some 0 else (charIndexIn rest c).map (· + 1)

/-- Numeric value of one base58 digit character; none when the character is not
in the alphabet (bs58 decode error). -/
def b58DigitVal (c : Char) : Option Nat := charIndexIn b58Alphabet c

/-- Big-endian base58 accumulation of a character list into a natural number. -/
def b58Num : List Char → Nat → Option Nat
  | [], acc => some acc
  | c :: cs, acc =>
    match b58DigitVal c with
    | none => none
    | some v => b58Num cs (acc * 58 + v)

/-- Little-endian base-256 digits of a natural number, with a structural fuel
bound (64 is enough for every number a 44-character base58 string can encode). -/
def natLEBytes : Nat → Nat → List Nat
  | 0, _ => []
  | fuel + 1, n => if n = 0 then [] else n % 256 :: natLEBytes fuel (n / 256)

/-- Count of leading zero-valued base58 digits (leading ones in the text); bs58
maps each to one leading zero byte of the decoded buffer. -/
def countLeadingZeroChars : List Char → Nat
  | [] => 0
  | c :: cs => if b58DigitVal c = some 0 then countLeadingZeroChars cs + 1 else 0

/-- Base58 decoding of a string to its byte buffer (bs58::decode(...).into_vec()):
the whole string read as a base58 number in big-endian, prefixed by one zero
byte per leading zero-valued character. -/
def base58Decode (s : String) : Option (List Nat) :=
  match b58Num s.toList 0 with
  | none => none
  | some n =>
    some (List.replicate (countLeadingZeroChars s.toList) 0 ++ (natLEBytes 64 n).reverse)

/-- Solana Pubkey::from_str: reject strings longer than MAX_BASE58_LEN = 44
bytes, base58-decode, then require exactly 32 decoded bytes. -/
def pubkeyFromStr (s : String) : Option Pubkey :=
  if 44 < s.utf8ByteSize then none
  else
    match base58Decode s with
    | none => none
    | some bytes => if bytes.length = 32 then some (.ofBytes bytes) else none

/-- Solana Hash::from_str (recent blockhash parsing): same shape as pubkey
parsing, MAX_BASE58_LEN = 44 then exactly HASH_BYTES = 32 decoded bytes. -/
def hashFromStr (s : String) : Option (List Nat) :=
  if 44 < s.utf8ByteSize then none
  else
    match base58Decode s with
    | none => none
    | some bytes => if bytes.length = 32 then some bytes else none

/-- Program id constants, from their canonical base58 forms (declare_id! values
of the linked crates). -/
def mplBubblegumID : Pubkey :=
  .ofBytes ((base58Decode "BGUMAp9Gq7iTEuizy4pqaxsTyUCBK68MDfK752saRPUY").getD [])

/-- spl_account_compression::ID. -/
def splAccountCompressionID : Pubkey :=
  .ofBytes ((base58Decode "cmtDvXumGCrqC1Age74AVPhSRVXJMd8PJS91L8KbNCK").getD [])

/-- spl_noop::ID. -/
def splNoopID : Pubkey :=
  .ofBytes ((base58Decode "noopb9bkMVfRPU8AsbpTUg8AQkHtKwMYZiFUjNRtMmV").getD [])

/-- mpl_token_metadata::ID. -/
def mplTokenMetadataID : Pubkey :=
  .ofBytes ((base58Decode "metaqbxxUerdq28cj1RbAWkYQm3ybzjb6a8bt518x1s").getD [])

/-- solana_program::system_program::ID (the all-zero key). -/
def systemProgramID : Pubkey := .ofBytes (List.replicate 32 0)

/-- TreeConfig::find_pda from mpl_bubblegum: derive the tree-authority PDA from
the merkle-tree address; the bump is discarded by every call site in core.rs. -/
def TreeConfig.find_pda (merkle_tree : Pubkey) : Pubkey := .treeConfigPda merkle_tree

/-- Metadata::find_pda from mpl_token_metadata: metadata PDA of a mint. -/
def Metadata.find_pda (mint : Pubkey) : Pubkey := .metadataPda mint

/-- MasterEdition::find_pda from mpl_token_metadata: master-edition PDA of a mint. -/
def MasterEdition.find_pda (mint : Pubkey) : Pubkey := .masterEditionPda mint

/-- Ed25519 keypair, as the 64 raw dalek bytes (secret 32 || public 32).  The
length check of Keypair::from_bytes is modelled; its curve-point validity check
is cryptographic and not modelled (see the header comment). -/
structure Keypair where
  bytes : List Nat
deriving DecidableEq, Repr

/-- Keypair::from_bytes (ed25519_dalek): requires exactly KEYPAIR_LENGTH = 64
bytes. -/
def keypairFromBytes (b : List Nat) : Option Keypair :=
  if b.length = 64 then some ⟨b⟩ else none

/-- Signer::pubkey(): the public half is the last 32 of the 64 dalek bytes. -/
def Keypair.pubkey (k : Keypair) : Pubkey := .ofBytes (k.bytes.drop 32)

/-- KeyPairInfo host struct (core.rs lines 19-24). -/
structure KeyPairInfo where
  pubkey : String
  secret : List Nat
deriving DecidableEq, Repr

/-- CreatorStruct host struct (core.rs lines 26-32). -/
structure CreatorStruct where
  address : String
  verified : Bool
  share : Nat
deriving DecidableEq, Repr

/-- CollectionStruct host struct (core.rs lines 34-39). -/
structure CollectionStruct where
  verified : Bool
  key : String
deriving DecidableEq, Repr

/-- UsesStruct host struct (core.rs lines 41-47). -/
structure UsesStruct where
  use_method : Nat
  remaining : Nat
  total : Nat
deriving DecidableEq, Repr

/-- MetadataArgsStruct host struct (core.rs lines 49-62). -/
structure MetadataArgsStruct where
  name : String
  symbol : String
  uri : String
  seller_fee_basis_points : Nat
  primary_sale_happened : Bool
  is_mutable : Bool
  edition_nonce : Option Nat
  creators : List CreatorStruct
  collection : Option CollectionStruct
  uses : Option UsesStruct
deriving DecidableEq, Repr

/-- mpl_bubblegum::types::UseMethod. -/
inductive UseMethod where
  | Burn
  | Multiple
  | Single
deriving DecidableEq, Repr

/-- mpl_bubblegum::types::Uses. -/
structure Uses where
  use_method : UseMethod
  remaining : Nat
  total : Nat
deriving DecidableEq, Repr

/-- mpl_bubblegum::types::Creator. -/
structure Creator where
  address : Pubkey
  verified : Bool
  share : Nat
deriving DecidableEq, Repr

/-- mpl_bubblegum::types::Collection. -/
structure Collection where
  verified : Bool
  key : Pubkey
deriving DecidableEq, Repr

/-- mpl_bubblegum::types::TokenProgramVersion. -/
inductive TokenProgramVersion where
  | Original
  | Token2022
deriving DecidableEq, Repr

/-- mpl_bubblegum::types::TokenStandard. -/
inductive TokenStandard where
  | NonFungible
  | FungibleAsset
  | Fungible
  | NonFungibleEdition
deriving DecidableEq, Repr

/-- mpl_bubblegum::types::MetadataArgs. -/
structure MetadataArgs where
  name : String
  symbol : String
  uri : String
  seller_fee_basis_points : Nat
  primary_sale_happened : Bool
  is_mutable : Bool
  edition_nonce : Option Nat
  creators : List Creator
  collection : Option Collection
  uses : Option Uses
  token_program_version : TokenProgramVersion
  token_standard : Option TokenStandard
deriving DecidableEq, Repr

/-- to_rust_creator (core.rs lines 71-80). -/
def to_rust_creator (creator : CreatorStruct) : Except String Creator :=
  match pubkeyFromStr creator.address with
  | none => .error "Invalid pubkey format for creator"
  | some address => .ok ⟨address, creator.verified, creator.share⟩

/-- Loop of core.rs lines 83-86: convert every creator entry, failing on the
first bad one, keeping order. -/
def to_rust_creators : List CreatorStruct → Except String (List Creator)
  | [] => .ok []
  | c :: cs =>
    match to_rust_creator c with
    | .error e => .error e
    | .ok r =>
      match to_rust_creators cs with
      | .error e => .error e
      | .ok rs => .ok (r :: rs)

/-- Collection branch of to_rust_metadata_args (core.rs lines 88-98). -/
def to_rust_collection : Option CollectionStruct → Except String (Option Collection)
  | some col =>
    match pubkeyFromStr col.key with
    | none => .error "Invalid pubkey format for collection"
    | some key => .ok (some ⟨col.verified, key⟩)
  | none => .ok none

/-- Uses branch of to_rust_metadata_args (core.rs lines 100-116). -/
def to_rust_uses : Option UsesStruct → Except String (Option Uses)
  | some uses =>
    match uses.use_method with
    | 0 => .ok (some ⟨.Burn, uses.remaining, uses.total⟩)
    | 1 => .ok (some ⟨.Multiple, uses.remaining, uses.total⟩)
    | 2 => .ok (some ⟨.Single, uses.remaining, uses.total⟩)
    | _ => .error "Invalid use method"
  | none => .ok none

/-- to_rust_metadata_args (core.rs lines 82-132). -/
def to_rust_metadata_args (args : MetadataArgsStruct) : Except String MetadataArgs :=
  match to_rust_creators args.creators with
  | .error e => .error e
  | .ok creators =>
    match to_rust_collection args.collection with
    | .error e => .error e
    | .ok collection =>
      match to_rust_uses args.uses with
      | .error e => .error e
      | .ok uses =>
        .ok { name := args.name
              symbol := args.symbol
              uri := args.uri
              seller_fee_basis_points := args.seller_fee_basis_points
              primary_sale_happened := args.primary_sale_happened
              is_mutable := args.is_mutable
              edition_nonce := args.edition_nonce
              creators := creators
              collection := collection
              uses := uses
              token_program_version := .Original
              token_standard := some .NonFungible }

/-- anchor_lang AccountMeta: pubkey plus signer/writable flags. -/
structure AccountMeta where
  pubkey : Pubkey
  is_signer : Bool
  is_writable : Bool
deriving DecidableEq, Repr

/-- AccountMeta::new: writable account. -/
def AccountMeta.new (pubkey : Pubkey) (signer : Bool) : AccountMeta :=
  ⟨pubkey, signer, true⟩

/-- AccountMeta::new_readonly: non-writable account. -/
def AccountMeta.new_readonly (pubkey : Pubkey) (signer : Bool) : AccountMeta :=
  ⟨pubkey, signer, false⟩

/-- mpl_bubblegum CreateTreeConfigInstructionArgs (the borsh argument payload of
the create-tree instruction). -/
structure CreateTreeConfigInstructionArgs where
  max_depth : Nat
  max_buffer_size : Nat
  public : Option Bool
deriving DecidableEq, Repr

/-- mpl_bubblegum TransferInstructionArgs. -/
structure TransferInstructionArgs where
  root : List Nat
  data_hash : List Nat
  creator_hash : List Nat
  nonce : Nat
  index : Nat
deriving DecidableEq, Repr

/-- mpl_bubblegum MintV1InstructionArgs. -/
structure MintV1InstructionArgs where
  metadata : MetadataArgs
deriving DecidableEq, Repr

/-- mpl_bubblegum MintToCollectionV1InstructionArgs. -/
structure MintToCollectionV1InstructionArgs where
  metadata : MetadataArgs
deriving DecidableEq, Repr

/-- Typed stand-in for the borsh-serialized data payload of an instruction; the
borsh byte encoding itself is the external program's fixed contract and is kept
structured here. -/
inductive InstructionData where
  | createAccount (lamports : Nat) (space : Nat) (owner : Pubkey)
  | createTreeConfig (args : CreateTreeConfigInstructionArgs)
  | mintV1 (args : MintV1InstructionArgs)
  | mintToCollectionV1 (args : MintToCollectionV1InstructionArgs)
  | transfer (args : TransferInstructionArgs)
deriving DecidableEq, Repr

/-- solana Instruction: program id, ordered account list, argument payload. -/
structure Instruction where
  program_id : Pubkey
  accounts : List AccountMeta
  data : InstructionData
deriving DecidableEq, Repr

/-- mpl_bubblegum Transfer accounts struct (core.rs lines 417-426); leaf_owner
and leaf_delegate carry an explicit as-signer flag, mirroring the
(Pubkey, bool) pairs of the crate. -/
structure Transfer where
  tree_config : Pubkey
  leaf_owner : Pubkey × Bool
  leaf_delegate : Pubkey × Bool
  new_leaf_owner : Pubkey
  merkle_tree : Pubkey
  log_wrapper : Pubkey
  compression_program : Pubkey
  system_program : Pubkey
deriving DecidableEq, Repr

/-- Transfer::instruction, modelled from the mpl-bubblegum crate's generated
instruction builder (an external dependency with a fixed published contract):
eight fixed accounts in this order, every account read-only except the merkle
tree, leaf_owner/leaf_delegate signer flags taken from their (key, as_signer)
pairs. -/
def Transfer.instruction (t : Transfer) (args : TransferInstructionArgs) : Instruction :=
  { program_id := mplBubblegumID
    accounts :=
      [ AccountMeta.new_readonly t.tree_config false
      , AccountMeta.new_readonly t.leaf_owner.1 t.leaf_owner.2
      , AccountMeta.new_readonly t.leaf_delegate.1 t.leaf_delegate.2
      , AccountMeta.new_readonly t.new_leaf_owner false
      , AccountMeta.new t.merkle_tree false
      , AccountMeta.new_readonly t.log_wrapper false
      , AccountMeta.new_readonly t.compression_program false
      , AccountMeta.new_readonly t.system_program false ]
    data := .transfer args }

/-- mpl_bubblegum CreateTreeConfig accounts struct (core.rs lines 179-187). -/
structure CreateTreeConfig where
  tree_config : Pubkey
  merkle_tree : Pubkey
  payer : Pubkey
  tree_creator : Pubkey
  log_wrapper : Pubkey
  compression_program : Pubkey
  system_program : Pubkey
deriving DecidableEq, Repr

/-- CreateTreeConfig::instruction, modelled from the mpl-bubblegum crate's
generated instruction builder (external fixed contract): tree_config and
merkle_tree writable, payer a writable signer, tree_creator a read-only
signer, programs read-only. -/
def CreateTreeConfig.instruction (t : CreateTreeConfig)
    (args : CreateTreeConfigInstructionArgs) : Instruction :=
  { program_id := mplBubblegumID
    accounts :=
      [ AccountMeta.new t.tree_config false
      , AccountMeta.new t.merkle_tree false
      , AccountMeta.new t.payer true
      , AccountMeta.new_readonly t.tree_creator true
      , AccountMeta.new_readonly t.log_wrapper false
      , AccountMeta.new_readonly t.compression_program false
      , AccountMeta.new_readonly t.system_program false ]
    data := .createTreeConfig args }

/-- mpl_bubblegum MintV1 accounts struct (core.rs lines 244-254). -/
structure MintV1 where
  tree_config : Pubkey
  leaf_delegate : Pubkey
  leaf_owner : Pubkey
  merkle_tree : Pubkey
  payer : Pubkey
  tree_creator_or_delegate : Pubkey
  log_wrapper : Pubkey
  compression_program : Pubkey
  system_program : Pubkey
deriving DecidableEq, Repr

/-- MintV1::instruction, modelled from the mpl-bubblegum crate's generated
instruction builder (external fixed contract). -/
def MintV1.instruction (t : MintV1) (args : MintV1InstructionArgs) : Instruction :=
  { program_id := mplBubblegumID
    accounts :=
      [ AccountMeta.new t.tree_config false
      , AccountMeta.new_readonly t.leaf_owner false
      , AccountMeta.new_readonly t.leaf_delegate false
      , AccountMeta.new t.merkle_tree false
      , AccountMeta.new_readonly t.payer true
      , AccountMeta.new_readonly t.tree_creator_or_delegate true
      , AccountMeta.new_readonly t.log_wrapper false
      , AccountMeta.new_readonly t.compression_program false
      , AccountMeta.new_readonly t.system_program false ]
    data := .mintV1 args }

/-- mpl_bubblegum MintToCollectionV1 accounts struct (core.rs lines 337-354). -/
structure MintToCollectionV1 where
  tree_config : Pubkey
  leaf_delegate : Pubkey
  leaf_owner : Pubkey
  merkle_tree : Pubkey
  payer : Pubkey
  collection_authority : Pubkey
  collection_mint : Pubkey
  collection_metadata : Pubkey
  collection_edition : Pubkey
  tree_creator_or_delegate : Pubkey
  collection_authority_record_pda : Option Pubkey
  bubblegum_signer : Pubkey
  token_metadata_program : Pubkey
  log_wrapper : Pubkey
  compression_program : Pubkey
  system_program : Pubkey
deriving DecidableEq, Repr

/-- MintToCollectionV1::instruction, modelled from the mpl-bubblegum crate's
generated instruction builder (external fixed contract): a None
collection_authority_record_pda is filled with the bubblegum program id as the
crate's placeholder. -/
def MintToCollectionV1.instruction (t : MintToCollectionV1)
    (args : MintToCollectionV1InstructionArgs) : Instruction :=
  { program_id := mplBubblegumID
    accounts :=
      [ AccountMeta.new t.tree_config false
      , AccountMeta.new_readonly t.leaf_owner false
      , AccountMeta.new_readonly t.leaf_delegate false
      , AccountMeta.new t.merkle_tree false
      , AccountMeta.new_readonly t.payer true
      , AccountMeta.new_readonly t.tree_creator_or_delegate true
      , AccountMeta.new_readonly t.collection_authority true
      , AccountMeta.new_readonly
          ((t.collection_authority_record_pda).getD mplBubblegumID) false
      , AccountMeta.new_readonly t.collection_mint false
      , AccountMeta.new t.collection_metadata false
      , AccountMeta.new_readonly t.collection_edition false
      , AccountMeta.new_readonly t.bubblegum_signer false
      , AccountMeta.new_readonly t.log_wrapper false
      , AccountMeta.new_readonly t.compression_program false
      , AccountMeta.new_readonly t.system_program false
      , AccountMeta.new_readonly t.token_metadata_program false ]
    data := .mintToCollectionV1 args }

/-- solana_program::system_instruction::create_account (external fixed
contract): funding account and new account are both writable signers; the data
payload carries lamports, space and the owner program. -/
def system_create_account (from_pubkey to_pubkey : Pubkey)
    (lamports space : Nat) (owner : Pubkey) : Instruction :=
  { program_id := systemProgramID
    accounts := [ AccountMeta.new from_pubkey true, AccountMeta.new to_pubkey true ]
    data := .createAccount lamports space owner }

/-- Structured transaction: instruction list, fee payer, recent blockhash and
the ordered pubkeys of the signing keypairs.  The ed25519 signatures themselves
are cryptographic output and are not modelled. -/
structure Transaction where
  instructions : List Instruction
  payer : Pubkey
  blockhash : List Nat
  signers : List Pubkey
deriving DecidableEq, Repr

/-- Transaction::new_signed_with_payer. -/
def Transaction.new_signed_with_payer (ixs : List Instruction) (payer : Pubkey)
    (signers : List Pubkey) (blockhash : List Nat) : Transaction :=
  ⟨ixs, payer, blockhash, signers⟩

/-- vec_to_array32 (utils.rs lines 1-8): require exactly 32 bytes, then copy
into a fixed array (here: return the same 32-element list). -/
def vec_to_array32 (vec : List Nat) : Except String (List Nat) :=
  if vec.length ≠ 32 then .error "Vector length must be 32"
  else .ok vec

/-- Pubkey::from_str(...).map_err(...) as every builder uses it: the parsed key
or the field-specific error message. -/
def parsePubkeyOr (s msg : String) : Except String Pubkey :=
  match pubkeyFromStr s with
  | none => .error msg
  | some pk => .ok pk

/-- Keypair::from_bytes(...).map_err(...) as the builders use it. -/
def parseKeypairOr (b : List Nat) (msg : String) : Except String Keypair :=
  match keypairFromBytes b with
  | none => .error msg
  | some k => .ok k

/-- Hash::from_str(...).map_err(...) as the builders use it. -/
def parseHashOr (s msg : String) : Except String (List Nat) :=
  match hashFromStr s with
  | none => .error msg
  | some h => .ok h

/-- Loop of core.rs lines 435-441: parse each proof address and turn it into a
read-only non-signer AccountMeta, in the supplied order, failing on the first
malformed address. -/
def parseProofAccounts : List String → Except String (List AccountMeta)
  | [] => .ok []
  | p :: ps =>
    match pubkeyFromStr p with
    | none => .error "Invalid pubkey format for proof address"
    | some pk =>
      match parseProofAccounts ps with
      | .error e => .error e
      | .ok rest => .ok (AccountMeta.new_readonly pk false :: rest)

/-- create_tree_config_ix (core.rs lines 143-212), up to the structured signed
transaction (serialization of the transaction is modelled separately). -/
def create_tree_config_ix (payer_info merkle_tree_info : KeyPairInfo)
    (max_depth max_buffer_size : Nat) (recent_blockhash : String)
    (public : Bool) (lamports account_size : Nat) : Except String Transaction :=
  match parseKeypairOr payer_info.secret "Invalid payer keypair" with
  | .error e => .error e
  | .ok payer_keypair =>
  match parseKeypairOr merkle_tree_info.secret "Invalid merkle tree keypair" with
  | .error e => .error e
  | .ok merkle_tree_keypair =>
  match parseHashOr recent_blockhash "Invalid blockhash" with
  | .error e => .error e
  | .ok blockhash =>
    let tree_authority := TreeConfig.find_pda merkle_tree_keypair.pubkey
    let create_account_ix := system_create_account payer_keypair.pubkey
      merkle_tree_keypair.pubkey lamports account_size splAccountCompressionID
    let create_tree_ix := CreateTreeConfig.instruction
      { tree_config := tree_authority
        merkle_tree := merkle_tree_keypair.pubkey
        payer := payer_keypair.pubkey
        tree_creator := payer_keypair.pubkey
        log_wrapper := splNoopID
        compression_program := splAccountCompressionID
        system_program := systemProgramID }
      { max_depth := max_depth, max_buffer_size := max_buffer_size, public := some public }
    .ok (Transaction.new_signed_with_payer [create_account_ix, create_tree_ix]
      payer_keypair.pubkey [payer_keypair.pubkey, merkle_tree_keypair.pubkey] blockhash)

/-- mint_v1_ix (core.rs lines 214-274), up to the structured signed
transaction. -/
def mint_v1_ix (tree_authority leaf_owner leaf_delegate merkle_tree : String)
    (payer : KeyPairInfo) (metadata_args : MetadataArgsStruct)
    (recent_blockhash : String) : Except String Transaction :=
  match parsePubkeyOr tree_authority "Invalid pubkey format for tree authority" with
  | .error e => .error e
  | .ok ta =>
  match parsePubkeyOr leaf_owner "Invalid pubkey format for leaf owner" with
  | .error e => .error e
  | .ok lo =>
  match parsePubkeyOr leaf_delegate "Invalid pubkey format for leaf delegate" with
  | .error e => .error e
  | .ok ld =>
  match parsePubkeyOr merkle_tree "Invalid pubkey format for merkle tree" with
  | .error e => .error e
  | .ok mt =>
  match parseKeypairOr payer.secret "Invalid pubkey format for payer" with
  | .error e => .error e
  | .ok payer_kp =>
  match to_rust_metadata_args metadata_args with
  | .error e => .error e
  | .ok metadata =>
  match parseHashOr recent_blockhash "Invalid blockhash" with
  | .error e => .error e
  | .ok blockhash =>
    let mint_ix := MintV1.instruction
      { tree_config := ta
        leaf_delegate := ld
        leaf_owner := lo
        merkle_tree := mt
        payer := payer_kp.pubkey
        tree_creator_or_delegate := payer_kp.pubkey
        log_wrapper := splNoopID
        compression_program := splAccountCompressionID
        system_program := systemProgramID }
      { metadata := metadata }
    .ok (Transaction.new_signed_with_payer [mint_ix] payer_kp.pubkey
      [payer_kp.pubkey] blockhash)

/-- Branch of core.rs lines 311-316: an empty collection_metadata string is
replaced by Metadata::find_pda(collection_mint).0; a non-empty one is parsed. -/
def resolveCollectionMetadata (collection_mint : Pubkey)
    (collection_metadata : String) : Except String Pubkey :=
  if collection_metadata.isEmpty then .ok (Metadata.find_pda collection_mint)
  else parsePubkeyOr collection_metadata "Invalid pubkey format for collection metadata"

/-- Branch of core.rs lines 318-326: an empty collection_master_edition string
is replaced by MasterEdition::find_pda(collection_mint).0; a non-empty one is
parsed. -/
def resolveCollectionMasterEdition (collection_mint : Pubkey)
    (collection_master_edition : String) : Except String Pubkey :=
  if collection_master_edition.isEmpty then .ok (MasterEdition.find_pda collection_mint)
  else parsePubkeyOr collection_master_edition
    "Invalid pubkey format for collection master edition"

/-- mint_to_collection_v1_ix (core.rs lines 276-374), up to the structured
signed transaction. -/
def mint_to_collection_v1_ix
    (tree_authority leaf_owner leaf_delegate merkle_tree : String)
    (payer : KeyPairInfo)
    (collection_authority collection_mint collection_metadata
      collection_master_edition : String)
    (metadata_args : MetadataArgsStruct) (recent_blockhash : String) :
    Except String Transaction :=
  match parsePubkeyOr tree_authority "Invalid pubkey format for tree authority" with
  | .error e => .error e
  | .ok ta =>
  match parsePubkeyOr leaf_owner "Invalid pubkey format for leaf owner" with
  | .error e => .error e
  | .ok lo =>
  match parsePubkeyOr leaf_delegate "Invalid pubkey format for leaf delegate" with
  | .error e => .error e
  | .ok ld =>
  match parsePubkeyOr merkle_tree "Invalid pubkey format for merkle tree" with
  | .error e => .error e
  | .ok mt =>
  match parseKeypairOr payer.secret "Invalid pubkey format for payer" with
  | .error e => .error e
  | .ok payer_kp =>
  match parsePubkeyOr collection_authority
      "Invalid pubkey format for collection authority" with
  | .error e => .error e
  | .ok coll_authority =>
  match parsePubkeyOr collection_mint "Invalid pubkey format for collection mint" with
  | .error e => .error e
  | .ok coll_mint =>
  match resolveCollectionMetadata coll_mint collection_metadata with
  | .error e => .error e
  | .ok coll_metadata =>
  match resolveCollectionMasterEdition coll_mint collection_master_edition with
  | .error e => .error e
  | .ok coll_edition =>
  match to_rust_metadata_args metadata_args with
  | .error e => .error e
  | .ok metadata =>
  match parseHashOr recent_blockhash "Invalid blockhash" with
  | .error e => .error e
  | .ok blockhash =>
    let mint_ix := MintToCollectionV1.instruction
      { tree_config := ta
        leaf_delegate := ld
        leaf_owner := lo
        merkle_tree := mt
        payer := payer_kp.pubkey
        collection_authority := coll_authority
        collection_mint := coll_mint
        collection_metadata := coll_metadata
        collection_edition := coll_edition
        tree_creator_or_delegate := payer_kp.pubkey
        collection_authority_record_pda := none
        bubblegum_signer := Pubkey.collectionCpiSigner
        token_metadata_program := mplTokenMetadataID
        log_wrapper := splNoopID
        compression_program := splAccountCompressionID
        system_program := systemProgramID }
      { metadata := metadata }
    .ok (Transaction.new_signed_with_payer [mint_ix] payer_kp.pubkey
      [payer_kp.pubkey] blockhash)

/-- transfer_ix (core.rs lines 376-467), up to the structured signed
transaction (the two serialization steps of lines 450-457 are modelled
separately as transfer_ix_message / transfer_ix_result). -/
def transfer_ix
    (tree_authority leaf_owner leaf_delegate new_leaf_owner merkle_tree : String)
    (root_hash creator_hash data_hash : List Nat) (nonce index : Nat)
    (proof_addresses : List String) (recent_blockhash : String)
    (payer : KeyPairInfo) : Except String Transaction :=
  match parsePubkeyOr tree_authority "Invalid pubkey format for tree authority" with
  | .error e => .error e
  | .ok ta =>
  match parsePubkeyOr leaf_owner "Invalid pubkey format for leaf owner" with
  | .error e => .error e
  | .ok lo =>
  match parsePubkeyOr leaf_delegate "Invalid pubkey format for leaf delegate" with
  | .error e => .error e
  | .ok ld =>
  match parsePubkeyOr new_leaf_owner "Invalid pubkey format for new leaf owner" with
  | .error e => .error e
  | .ok nlo =>
  match parsePubkeyOr merkle_tree "Invalid pubkey format for merkle tree" with
  | .error e => .error e
  | .ok mt =>
  match parseKeypairOr payer.secret "Invalid payer keypair" with
  | .error e => .error e
  | .ok payer_kp =>
  match parseHashOr recent_blockhash "Invalid blockhash" with
  | .error e => .error e
  | .ok blockhash =>
  match vec_to_array32 root_hash with
  | .error e => .error e
  | .ok root =>
  match vec_to_array32 data_hash with
  | .error e => .error e
  | .ok data_hash32 =>
  match vec_to_array32 creator_hash with
  | .error e => .error e
  | .ok creator_hash32 =>
    let base_ix := Transfer.instruction
      { tree_config := ta
        leaf_owner := (lo, true)
        leaf_delegate := (ld, true)
        new_leaf_owner := nlo
        merkle_tree := mt
        log_wrapper := splNoopID
        compression_program := splAccountCompressionID
        system_program := systemProgramID }
      { root := root, data_hash := data_hash32, creator_hash := creator_hash32
        nonce := nonce, index := index }
    match parseProofAccounts proof_addresses with
    | .error e => .error e
    | .ok proof_metas =>
      let ix := { base_ix with accounts := base_ix.accounts ++ proof_metas }
      .ok (Transaction.new_signed_with_payer [ix] payer_kp.pubkey
        [payer_kp.pubkey] blockhash)

/-- get_tree_authority_pda_address (core.rs lines 469-476), up to the derived
Pubkey; the final to_string() re-encoding is a pure injective base58 formatting
step and is omitted from the model. -/
def get_tree_authority_pda_address (merkle_tree : String) : Except String Pubkey :=
  match parsePubkeyOr merkle_tree "Invalid pubkey format for merkle tree" with
  | .error e => .error e
  | .ok mt => .ok (TreeConfig.find_pda mt)

/-- Little-endian u64 byte encoding, as bincode 1.x (fixint, little-endian)
writes a length. -/
def u64LE (n : Nat) : List Nat :=
  [ n % 256, n / 256 % 256, n / 256 ^ 2 % 256, n / 256 ^ 3 % 256
  , n / 256 ^ 4 % 256, n / 256 ^ 5 % 256, n / 256 ^ 6 % 256, n / 256 ^ 7 % 256 ]

/-- bincode::serialize of a Vec<u8> (bincode 1.x default configuration): an
8-byte little-endian length prefix followed by the raw bytes. -/
def bincodeBytes (b : List Nat) : List Nat := u64LE b.length ++ b

/-- Lines 450-466 of core.rs: transfer_ix serializes the signed transaction
with bincode and then serializes the resulting byte vector with bincode AGAIN,
returning the second serialization as the message field.  The transaction
encoding itself (serde/bincode of solana Transaction, an external contract) is
the parameter serTx. -/
def transfer_ix_result (serTx : Transaction → List Nat)
    (tree_authority leaf_owner leaf_delegate new_leaf_owner merkle_tree : String)
    (root_hash creator_hash data_hash : List Nat) (nonce index : Nat)
    (proof_addresses : List String) (recent_blockhash : String)
    (payer : KeyPairInfo) : Except String (List Nat) :=
  (transfer_ix tree_authority leaf_owner leaf_delegate new_leaf_owner merkle_tree
    root_hash creator_hash data_hash nonce index proof_addresses recent_blockhash
    payer).map (fun tx => bincodeBytes (serTx tx))

/-- Lines 260-273 of core.rs: mint_v1_ix serializes the signed transaction with
bincode exactly once and returns it as the message field. -/
def mint_v1_ix_result (serTx : Transaction → List Nat)
    (tree_authority leaf_owner leaf_delegate merkle_tree : String)
    (payer : KeyPairInfo) (metadata_args : MetadataArgsStruct)
    (recent_blockhash : String) : Except String (List Nat) :=
  (mint_v1_ix tree_authority leaf_owner leaf_delegate merkle_tree payer
    metadata_args recent_blockhash).map serTx

/-- Lines 201-211 of core.rs: create_tree_config_ix also serializes the signed
transaction with bincode exactly once. -/
def create_tree_config_ix_result (serTx : Transaction → List Nat)
    (payer_info merkle_tree_info : KeyPairInfo)
    (max_depth max_buffer_size : Nat) (recent_blockhash : String)
    (public : Bool) (lamports account_size : Nat) : Except String (List Nat) :=
  (create_tree_config_ix payer_info merkle_tree_info max_depth max_buffer_size
    recent_blockhash public lamports account_size).map serTx

/-- Concrete address text used by witnesses: 32 ones decode to the 32-zero-byte
key (the system program id), a valid address and a valid blockhash. -/
def onesAddr : String := "11111111111111111111111111111111"

/-- Concrete 32-byte buffer used by witnesses. -/
def zeros32 : List Nat := List.replicate 32 0

/-- Concrete 64-byte keypair material used by witnesses. -/
def zeroKeyInfo : KeyPairInfo := ⟨"", List.replicate 64 0⟩


/-- Extraction of the create-tree instruction argument payload from a builder
result: the args of the first instruction carrying createTreeConfig data. -/
def emittedCreateTreeArgs (r : Except String Transaction) :
    Option CreateTreeConfigInstructionArgs :=
  match r with
  | .error _ => none
  | .ok tx =>
    tx.instructions.findSome? fun ix =>
      match ix.data with
      | .createTreeConfig a => some a
      | _ => none

/-- Extraction of the transfer instruction argument payload from a builder
result. -/
def emittedTransferArgs (r : Except String Transaction) :
    Option TransferInstructionArgs :=
  match r with
  | .error _ => none
  | .ok tx =>
    tx.instructions.findSome? fun ix =>
      match ix.data with
      | .transfer a => some a
      | _ => none

/-- First instruction of a successful builder result. -/
def firstInstruction (r : Except String Transaction) : Option Instruction :=
  match r with
  | .error _ => none
  | .ok tx => tx.instructions.head?

/-! Helper lemmas shared by several claims. -/

theorem u64LE_length (n : Nat) : (u64LE n).length = 8 := rfl

theorem bincodeBytes_ne_self (b : List Nat) : bincodeBytes b ≠ b := by
  intro h
  have hl : (bincodeBytes b).length = b.length := by rw [h]
  simp [bincodeBytes, u64LE] at hl
  omega

/-- parseProofAccounts succeeds exactly by parsing each address in order into a
read-only non-signer meta. -/
theorem parseProofAccounts_ok (ps : List String) (metas : List AccountMeta)
    (h : parseProofAccounts ps = .ok metas) :
    List.Forall₂ (fun p m => pubkeyFromStr p = some m.pubkey ∧
      m.is_signer = false ∧ m.is_writable = false) ps metas := by
  induction ps generalizing metas with
  | nil =>
    simp only [parseProofAccounts] at h
    cases h
    exact List.Forall₂.nil
  | cons p ps ih =>
    simp only [parseProofAccounts] at h
    cases hp : pubkeyFromStr p with
    | none => rw [hp] at h; cases h
    | some pk =>
      rw [hp] at h
      cases hr : parseProofAccounts ps with
      | error e => rw [hr] at h; cases h
      | ok rest =>
        rw [hr] at h
        cases h
        exact List.Forall₂.cons ⟨hp, rfl, rfl⟩ (ih rest hr)

/-- C1: REFUTED as stated — transfer_ix does NOT return the single bincode
serialization of the signed transaction.  For every successful call and every
possible transaction encoding serTx, the returned message field is
bincodeBytes (serTx tx) — the bincode serialization OF the bincode
serialization (core.rs lines 450-457 serialize twice) — and this never equals
the single serialization serTx tx that mint_v1_ix and create_tree_config_ix
return, because the outer pass prepends an 8-byte little-endian length
prefix. -/
theorem c1_transfer_message_double_serialized (serTx : Transaction → List Nat)
    (tree_authority leaf_owner leaf_delegate new_leaf_owner merkle_tree : String)
    (root_hash creator_hash data_hash : List Nat) (nonce index : Nat)
    (proof_addresses : List String) (recent_blockhash : String)
    (payer : KeyPairInfo)
    (h : (transfer_ix tree_authority leaf_owner leaf_delegate new_leaf_owner
      merkle_tree root_hash creator_hash data_hash nonce index proof_addresses
      recent_blockhash payer).isOk = true) :
    transfer_ix_result serTx tree_authority leaf_owner leaf_delegate
        new_leaf_owner merkle_tree root_hash creator_hash data_hash nonce index
        proof_addresses recent_blockhash payer
      = (transfer_ix tree_authority leaf_owner leaf_delegate new_leaf_owner
          merkle_tree root_hash creator_hash data_hash nonce index
          proof_addresses recent_blockhash payer).map
          (fun tx => bincodeBytes (serTx tx)) ∧
    transfer_ix_result serTx tree_authority leaf_owner leaf_delegate
        new_leaf_owner merkle_tree root_hash creator_hash data_hash nonce index
        proof_addresses recent_blockhash payer
      ≠ (transfer_ix tree_authority leaf_owner leaf_delegate new_leaf_owner
          merkle_tree root_hash creator_hash data_hash nonce index
          proof_addresses recent_blockhash payer).map serTx := by
  refine ⟨rfl, ?_⟩
  unfold transfer_ix_result
  cases e : transfer_ix tree_authority leaf_owner leaf_delegate new_leaf_owner
      merkle_tree root_hash creator_hash data_hash nonce index proof_addresses
      recent_blockhash payer with
  | error err => rw [e] at h; simp [Except.isOk, Except.toBool] at h
  | ok tx =>
    simp only [Except.map]
    intro heq
    exact bincodeBytes_ne_self (serTx tx) (Except.ok.inj heq)

/-- Witness for C1 at a concrete successful transfer call, with the constant
empty encoding as serTx. -/
theorem c1_transfer_message_double_serialized_witness :
    (transfer_ix onesAddr onesAddr onesAddr onesAddr onesAddr
        zeros32 zeros32 zeros32 0 0 [] onesAddr zeroKeyInfo).isOk = true ∧
    (transfer_ix_result (fun _ => []) onesAddr onesAddr onesAddr onesAddr
        onesAddr zeros32 zeros32 zeros32 0 0 [] onesAddr zeroKeyInfo
      = (transfer_ix onesAddr onesAddr onesAddr onesAddr onesAddr
          zeros32 zeros32 zeros32 0 0 [] onesAddr zeroKeyInfo).map
          (fun tx => bincodeBytes ((fun _ => []) tx)) ∧
    transfer_ix_result (fun _ => []) onesAddr onesAddr onesAddr onesAddr
        onesAddr zeros32 zeros32 zeros32 0 0 [] onesAddr zeroKeyInfo
      ≠ (transfer_ix onesAddr onesAddr onesAddr onesAddr onesAddr
          zeros32 zeros32 zeros32 0 0 [] onesAddr zeroKeyInfo).map
          (fun _ => [])) :=
  ⟨by decide,
    c1_transfer_message_double_serialized (fun _ => []) onesAddr onesAddr
      onesAddr onesAddr onesAddr zeros32 zeros32 zeros32 0 0 [] onesAddr
      zeroKeyInfo (by decide)⟩

/-- C2 counterexample: calling create_tree_config_ix with max_depth = 31 and
max_buffer_size = 4000 emits the create-tree instruction with exactly 31 and
4000 — NOT the clamped min(31, 30) = 30 and min(4000, 2048) = 2048 the claim
asserts.  No clamping happens anywhere in the builder. -/
theorem c2_clamping_counterexample :
    emittedCreateTreeArgs
        (create_tree_config_ix zeroKeyInfo zeroKeyInfo 31 4000 onesAddr true 0 0)
      = some ⟨31, 4000, some true⟩ ∧
    (some (⟨31, 4000, some true⟩ : CreateTreeConfigInstructionArgs)
      ≠ some (⟨min 31 30, min 4000 2048, some true⟩ :
          CreateTreeConfigInstructionArgs)) := by
  constructor
  · decide
  · decide

/-- C2 amended: create_tree_config_ix performs no clamping at all — for every
successful call, the max_depth and max_buffer_size placed in the emitted
create-tree instruction arguments are exactly the host-supplied values, and the
visibility flag is Some of the host-supplied public argument. -/
theorem c2_args_passed_through_unclamped
    (payer_info merkle_tree_info : KeyPairInfo)
    (max_depth max_buffer_size : Nat) (recent_blockhash : String)
    (public : Bool) (lamports account_size : Nat)
    (h : (create_tree_config_ix payer_info merkle_tree_info max_depth
      max_buffer_size recent_blockhash public lamports account_size).isOk = true) :
    emittedCreateTreeArgs (create_tree_config_ix payer_info merkle_tree_info
        max_depth max_buffer_size recent_blockhash public lamports account_size)
      = some ⟨max_depth, max_buffer_size, some public⟩ := by
  unfold create_tree_config_ix at h ⊢
  cases e1 : parseKeypairOr payer_info.secret "Invalid payer keypair" with
  | error e => rw [e1] at h; exact Bool.noConfusion h
  | ok payer_kp =>
    rw [e1] at h
    cases e2 : parseKeypairOr merkle_tree_info.secret "Invalid merkle tree keypair" with
    | error e => rw [e2] at h; exact Bool.noConfusion h
    | ok mt_kp =>
      rw [e2] at h
      cases e3 : parseHashOr recent_blockhash "Invalid blockhash" with
      | error e => rw [e3] at h; exact Bool.noConfusion h
      | ok bh => rfl

/-- Witness for the amended C2 at a concrete successful call. -/
theorem c2_args_passed_through_unclamped_witness :
    (create_tree_config_ix zeroKeyInfo zeroKeyInfo 999 9999 onesAddr false 5 7).isOk
      = true ∧
    emittedCreateTreeArgs (create_tree_config_ix zeroKeyInfo zeroKeyInfo 999 9999
        onesAddr false 5 7)
      = some ⟨999, 9999, some false⟩ :=
  ⟨by decide,
    c2_args_passed_through_unclamped zeroKeyInfo zeroKeyInfo 999 9999 onesAddr
      false 5 7 (by decide)⟩

/-- C4 counterexample: two create_tree_config_ix calls that differ only in the
host-supplied `public` argument emit create-tree instructions with DIFFERENT
visibility flags (Some true vs Some false), so the flag is not a fixed
constant of this core. -/
theorem c4_public_flag_counterexample :
    (emittedCreateTreeArgs
        (create_tree_config_ix zeroKeyInfo zeroKeyInfo 14 64 onesAddr true 0 0)).map
        (fun a => a.public)
      = some (some true) ∧
    (emittedCreateTreeArgs
        (create_tree_config_ix zeroKeyInfo zeroKeyInfo 14 64 onesAddr false 0 0)).map
        (fun a => a.public)
      = some (some false) ∧
    (some (some true) : Option (Option Bool)) ≠ some (some false) := by
  refine ⟨by decide, by decide, by decide⟩

/-- C4 amended: the visibility flag of the emitted create-tree instruction is
Some of the host-supplied `public` parameter (core.rs line 191), so it varies
with that host input and with nothing else. -/
theorem c4_public_flag_from_host (payer_info merkle_tree_info : KeyPairInfo)
    (max_depth max_buffer_size : Nat) (recent_blockhash : String)
    (public : Bool) (lamports account_size : Nat)
    (h : (create_tree_config_ix payer_info merkle_tree_info max_depth
      max_buffer_size recent_blockhash public lamports account_size).isOk = true) :
    (emittedCreateTreeArgs (create_tree_config_ix payer_info merkle_tree_info
        max_depth max_buffer_size recent_blockhash public lamports
        account_size)).map (fun a => a.public)
      = some (some public) := by
  unfold create_tree_config_ix at h ⊢
  cases e1 : parseKeypairOr payer_info.secret "Invalid payer keypair" with
  | error e => rw [e1] at h; exact Bool.noConfusion h
  | ok payer_kp =>
    rw [e1] at h
    cases e2 : parseKeypairOr merkle_tree_info.secret "Invalid merkle tree keypair" with
    | error e => rw [e2] at h; exact Bool.noConfusion h
    | ok mt_kp =>
      rw [e2] at h
      cases e3 : parseHashOr recent_blockhash "Invalid blockhash" with
      | error e => rw [e3] at h; exact Bool.noConfusion h
      | ok bh => rfl

/-- Witness for the amended C4 at a concrete successful call. -/
theorem c4_public_flag_from_host_witness :
    (create_tree_config_ix zeroKeyInfo zeroKeyInfo 14 64 onesAddr false 1 2).isOk
      = true ∧
    (emittedCreateTreeArgs (create_tree_config_ix zeroKeyInfo zeroKeyInfo 14 64
        onesAddr false 1 2)).map (fun a => a.public)
      = some (some false) :=
  ⟨by decide,
    c4_public_flag_from_host zeroKeyInfo zeroKeyInfo 14 64 onesAddr false 1 2
      (by decide)⟩

/-- C3: with all other transfer_ix inputs well-formed, a root_hash,
creator_hash or data_hash whose length is not exactly 32 makes the call fail
with the hash-length error (so no transaction and no signatures are returned),
and when all three are exactly 32 bytes the hash validation succeeds and the
three arrays embedded in the emitted instruction arguments are exactly the
supplied byte vectors. -/
theorem c3_transfer_hash_length_validation
    (tree_authority leaf_owner leaf_delegate new_leaf_owner merkle_tree : String)
    (root_hash creator_hash data_hash : List Nat) (nonce index : Nat)
    (proof_addresses : List String) (recent_blockhash : String)
    (payer : KeyPairInfo) (taP loP ldP nloP mtP : Pubkey) (kp : Keypair)
    (bhBytes : List Nat) (metas : List AccountMeta)
    (h1 : pubkeyFromStr tree_authority = some taP)
    (h2 : pubkeyFromStr leaf_owner = some loP)
    (h3 : pubkeyFromStr leaf_delegate = some ldP)
    (h4 : pubkeyFromStr new_leaf_owner = some nloP)
    (h5 : pubkeyFromStr merkle_tree = some mtP)
    (h6 : keypairFromBytes payer.secret = some kp)
    (h7 : hashFromStr recent_blockhash = some bhBytes)
    (h8 : parseProofAccounts proof_addresses = .ok metas) :
    ((root_hash.length ≠ 32 ∨ creator_hash.length ≠ 32 ∨ data_hash.length ≠ 32) →
      transfer_ix tree_authority leaf_owner leaf_delegate new_leaf_owner
          merkle_tree root_hash creator_hash data_hash nonce index
          proof_addresses recent_blockhash payer
        = .error "Vector length must be 32") ∧
    (root_hash.length = 32 → creator_hash.length = 32 → data_hash.length = 32 →
      (transfer_ix tree_authority leaf_owner leaf_delegate new_leaf_owner
          merkle_tree root_hash creator_hash data_hash nonce index
          proof_addresses recent_blockhash payer).isOk = true ∧
      emittedTransferArgs (transfer_ix tree_authority leaf_owner leaf_delegate
          new_leaf_owner merkle_tree root_hash creator_hash data_hash nonce
          index proof_addresses recent_blockhash payer)
        = some ⟨root_hash, data_hash, creator_hash, nonce, index⟩) := by
  constructor
  · intro hbad
    by_cases hr : root_hash.length = 32
    · by_cases hd : data_hash.length = 32
      · by_cases hc : creator_hash.length = 32
        · rcases hbad with hb | hb | hb
          exacts [absurd hr hb, absurd hc hb, absurd hd hb]
        · simp [transfer_ix, parsePubkeyOr, parseKeypairOr, parseHashOr,
            h1, h2, h3, h4, h5, h6, h7, vec_to_array32, hr, hd, hc]
      · simp [transfer_ix, parsePubkeyOr, parseKeypairOr, parseHashOr,
          h1, h2, h3, h4, h5, h6, h7, vec_to_array32, hr, hd]
    · simp [transfer_ix, parsePubkeyOr, parseKeypairOr, parseHashOr,
        h1, h2, h3, h4, h5, h6, h7, vec_to_array32, hr]
  · intro hr hc hd
    constructor
    · simp [transfer_ix, parsePubkeyOr, parseKeypairOr, parseHashOr,
        h1, h2, h3, h4, h5, h6, h7, vec_to_array32, hr, hc, hd, h8,
        Except.isOk, Except.toBool]
    · simp [transfer_ix, parsePubkeyOr, parseKeypairOr, parseHashOr,
        h1, h2, h3, h4, h5, h6, h7, vec_to_array32, hr, hc, hd, h8,
        emittedTransferArgs, Transfer.instruction, Transaction.new_signed_with_payer,
        List.findSome?]

/-- Witness for C3 at a concrete call with well-formed inputs. -/
theorem c3_transfer_hash_length_validation_witness :
    (pubkeyFromStr onesAddr = some (Pubkey.ofBytes zeros32) ∧
      keypairFromBytes zeroKeyInfo.secret = some ⟨List.replicate 64 0⟩ ∧
      hashFromStr onesAddr = some zeros32 ∧
      parseProofAccounts [] = Except.ok []) ∧
    (((zeros32.length ≠ 32 ∨ zeros32.length ≠ 32 ∨ zeros32.length ≠ 32) →
        transfer_ix onesAddr onesAddr onesAddr onesAddr onesAddr zeros32 zeros32
            zeros32 3 4 [] onesAddr zeroKeyInfo
          = .error "Vector length must be 32") ∧
      (zeros32.length = 32 → zeros32.length = 32 → zeros32.length = 32 →
        (transfer_ix onesAddr onesAddr onesAddr onesAddr onesAddr zeros32 zeros32
            zeros32 3 4 [] onesAddr zeroKeyInfo).isOk = true ∧
        emittedTransferArgs (transfer_ix onesAddr onesAddr onesAddr onesAddr
            onesAddr zeros32 zeros32 zeros32 3 4 [] onesAddr zeroKeyInfo)
          = some ⟨zeros32, zeros32, zeros32, 3, 4⟩)) :=
  ⟨⟨by decide, by decide, by decide, by decide⟩,
    c3_transfer_hash_length_validation onesAddr onesAddr onesAddr onesAddr
      onesAddr zeros32 zeros32 zeros32 3 4 [] onesAddr zeroKeyInfo
      (Pubkey.ofBytes zeros32) (Pubkey.ofBytes zeros32) (Pubkey.ofBytes zeros32)
      (Pubkey.ofBytes zeros32) (Pubkey.ofBytes zeros32) ⟨List.replicate 64 0⟩
      zeros32 [] (by decide) (by decide) (by decide) (by decide) (by decide)
      (by decide) (by decide) (by decide)⟩

/-- C8: in every successful transfer_ix call, the emitted instruction marks
leaf_owner (account position 1) and leaf_delegate (position 2) as required
signers, and the accounts after the eight fixed ones are exactly the parsed
proof addresses, each read-only and non-signing, in the order supplied (an
empty proof list appends nothing). -/
theorem c8_transfer_signers_and_proof_accounts
    (tree_authority leaf_owner leaf_delegate new_leaf_owner merkle_tree : String)
    (root_hash creator_hash data_hash : List Nat) (nonce index : Nat)
    (proof_addresses : List String) (recent_blockhash : String)
    (payer : KeyPairInfo) (taP loP ldP nloP mtP : Pubkey) (kp : Keypair)
    (bhBytes : List Nat) (metas : List AccountMeta)
    (h1 : pubkeyFromStr tree_authority = some taP)
    (h2 : pubkeyFromStr leaf_owner = some loP)
    (h3 : pubkeyFromStr leaf_delegate = some ldP)
    (h4 : pubkeyFromStr new_leaf_owner = some nloP)
    (h5 : pubkeyFromStr merkle_tree = some mtP)
    (h6 : keypairFromBytes payer.secret = some kp)
    (h7 : hashFromStr recent_blockhash = some bhBytes)
    (h8 : parseProofAccounts proof_addresses = .ok metas)
    (h9 : root_hash.length = 32) (h10 : creator_hash.length = 32)
    (h11 : data_hash.length = 32) :
    (firstInstruction (transfer_ix tree_authority leaf_owner leaf_delegate
        new_leaf_owner merkle_tree root_hash creator_hash data_hash nonce index
        proof_addresses recent_blockhash payer)).map
        (fun ix => ix.accounts[1]?)
      = some (some (AccountMeta.new_readonly loP true)) ∧
    (firstInstruction (transfer_ix tree_authority leaf_owner leaf_delegate
        new_leaf_owner merkle_tree root_hash creator_hash data_hash nonce index
        proof_addresses recent_blockhash payer)).map
        (fun ix => ix.accounts[2]?)
      = some (some (AccountMeta.new_readonly ldP true)) ∧
    (firstInstruction (transfer_ix tree_authority leaf_owner leaf_delegate
        new_leaf_owner merkle_tree root_hash creator_hash data_hash nonce index
        proof_addresses recent_blockhash payer)).map
        (fun ix => ix.accounts.drop 8)
      = some metas ∧
    List.Forall₂ (fun p m => pubkeyFromStr p = some m.pubkey ∧
      m.is_signer = false ∧ m.is_writable = false) proof_addresses metas := by
  refine ⟨?_, ?_, ?_, parseProofAccounts_ok proof_addresses metas h8⟩ <;>
    simp [transfer_ix, parsePubkeyOr, parseKeypairOr, parseHashOr,
      h1, h2, h3, h4, h5, h6, h7, vec_to_array32, h9, h10, h11, h8,
      firstInstruction, Transfer.instruction, AccountMeta.new_readonly,
      AccountMeta.new, Transaction.new_signed_with_payer]

/-- Witness for C8 at a concrete call carrying a two-element proof list. -/
theorem c8_transfer_signers_and_proof_accounts_witness :
    (pubkeyFromStr onesAddr = some (Pubkey.ofBytes zeros32) ∧
      keypairFromBytes zeroKeyInfo.secret = some ⟨List.replicate 64 0⟩ ∧
      hashFromStr onesAddr = some zeros32 ∧
      parseProofAccounts [onesAddr, onesAddr]
        = Except.ok [AccountMeta.new_readonly (Pubkey.ofBytes zeros32) false,
            AccountMeta.new_readonly (Pubkey.ofBytes zeros32) false] ∧
      zeros32.length = 32) ∧
    ((firstInstruction (transfer_ix onesAddr onesAddr onesAddr onesAddr onesAddr
        zeros32 zeros32 zeros32 1 2 [onesAddr, onesAddr] onesAddr
        zeroKeyInfo)).map (fun ix => ix.accounts[1]?)
      = some (some (AccountMeta.new_readonly (Pubkey.ofBytes zeros32) true)) ∧
    (firstInstruction (transfer_ix onesAddr onesAddr onesAddr onesAddr onesAddr
        zeros32 zeros32 zeros32 1 2 [onesAddr, onesAddr] onesAddr
        zeroKeyInfo)).map (fun ix => ix.accounts[2]?)
      = some (some (AccountMeta.new_readonly (Pubkey.ofBytes zeros32) true)) ∧
    (firstInstruction (transfer_ix onesAddr onesAddr onesAddr onesAddr onesAddr
        zeros32 zeros32 zeros32 1 2 [onesAddr, onesAddr] onesAddr
        zeroKeyInfo)).map (fun ix => ix.accounts.drop 8)
      = some [AccountMeta.new_readonly (Pubkey.ofBytes zeros32) false,
          AccountMeta.new_readonly (Pubkey.ofBytes zeros32) false] ∧
    List.Forall₂ (fun p m => pubkeyFromStr p = some m.pubkey ∧
        m.is_signer = false ∧ m.is_writable = false)
      [onesAddr, onesAddr]
      [AccountMeta.new_readonly (Pubkey.ofBytes zeros32) false,
        AccountMeta.new_readonly (Pubkey.ofBytes zeros32) false]) :=
  ⟨⟨by decide, by decide, by decide, by decide, by decide⟩,
    c8_transfer_signers_and_proof_accounts onesAddr onesAddr onesAddr onesAddr
      onesAddr zeros32 zeros32 zeros32 1 2 [onesAddr, onesAddr] onesAddr
      zeroKeyInfo (Pubkey.ofBytes zeros32) (Pubkey.ofBytes zeros32)
      (Pubkey.ofBytes zeros32) (Pubkey.ofBytes zeros32) (Pubkey.ofBytes zeros32)
      ⟨List.replicate 64 0⟩ zeros32
      [AccountMeta.new_readonly (Pubkey.ofBytes zeros32) false,
        AccountMeta.new_readonly (Pubkey.ofBytes zeros32) false]
      (by decide) (by decide) (by decide) (by decide) (by decide) (by decide)
      (by decide) (by decide) (by decide) (by decide) (by decide)⟩

/-- C5: the converter maps use_method 0 to Burn, 1 to Multiple, 2 to Single,
copying remaining and total unchanged, and any other code makes the uses
conversion, the whole metadata conversion, and every builder call carrying
that metadata — mint_v1_ix and mint_to_collection_v1_ix, the two builders that
take metadata — fail with the invalid-use-method error. -/
theorem c5_use_method_mapping (args : MetadataArgsStruct) (u : UsesStruct)
    (hu : args.uses = some u) :
    (u.use_method = 0 →
      to_rust_uses args.uses = .ok (some ⟨.Burn, u.remaining, u.total⟩)) ∧
    (u.use_method = 1 →
      to_rust_uses args.uses = .ok (some ⟨.Multiple, u.remaining, u.total⟩)) ∧
    (u.use_method = 2 →
      to_rust_uses args.uses = .ok (some ⟨.Single, u.remaining, u.total⟩)) ∧
    (u.use_method ≠ 0 → u.use_method ≠ 1 → u.use_method ≠ 2 →
      to_rust_uses args.uses = .error "Invalid use method" ∧
      (∀ m, to_rust_metadata_args args ≠ .ok m) ∧
      (∀ ta lo ld mt payer bh,
        (mint_v1_ix ta lo ld mt payer args bh).isOk = false) ∧
      (∀ ta lo ld mt payer ca cmint cmeta cedition bh,
        (mint_to_collection_v1_ix ta lo ld mt payer ca cmint cmeta cedition
          args bh).isOk = false)) := by
  refine ⟨?_, ?_, ?_, ?_⟩
  · intro h0; simp [to_rust_uses, hu, h0]
  · intro h1; simp [to_rust_uses, hu, h1]
  · intro h2; simp [to_rust_uses, hu, h2]
  · intro hn0 hn1 hn2
    obtain ⟨k, hk⟩ : ∃ k, u.use_method = k + 3 :=
      ⟨u.use_method - 3, by omega⟩
    have herr : to_rust_uses args.uses = .error "Invalid use method" := by
      simp [to_rust_uses, hu, hk]
    have hnok : ∀ m, to_rust_metadata_args args ≠ .ok m := by
      intro m
      unfold to_rust_metadata_args
      cases e1 : to_rust_creators args.creators with
      | error e => simp
      | ok cs =>
        cases e2 : to_rust_collection args.collection with
        | error e => simp
        | ok col => rw [herr]; simp
    refine ⟨herr, hnok, ?_, ?_⟩
    · intro ta lo ld mt payer bh
      unfold mint_v1_ix
      cases parsePubkeyOr ta "Invalid pubkey format for tree authority" with
      | error e => rfl
      | ok x1 =>
      cases parsePubkeyOr lo "Invalid pubkey format for leaf owner" with
      | error e => rfl
      | ok x2 =>
      cases parsePubkeyOr ld "Invalid pubkey format for leaf delegate" with
      | error e => rfl
      | ok x3 =>
      cases parsePubkeyOr mt "Invalid pubkey format for merkle tree" with
      | error e => rfl
      | ok x4 =>
      cases parseKeypairOr payer.secret "Invalid pubkey format for payer" with
      | error e => rfl
      | ok kp =>
      cases em : to_rust_metadata_args args with
      | error e => rfl
      | ok m => exact absurd em (hnok m)
    · intro ta lo ld mt payer ca cmint cmeta cedition bh
      unfold mint_to_collection_v1_ix
      cases parsePubkeyOr ta "Invalid pubkey format for tree authority" with
      | error e => rfl
      | ok y1 =>
      cases parsePubkeyOr lo "Invalid pubkey format for leaf owner" with
      | error e => rfl
      | ok y2 =>
      cases parsePubkeyOr ld "Invalid pubkey format for leaf delegate" with
      | error e => rfl
      | ok y3 =>
      cases parsePubkeyOr mt "Invalid pubkey format for merkle tree" with
      | error e => rfl
      | ok y4 =>
      cases parseKeypairOr payer.secret "Invalid pubkey format for payer" with
      | error e => rfl
      | ok kp =>
      cases parsePubkeyOr ca "Invalid pubkey format for collection authority" with
      | error e => rfl
      | ok y5 =>
      cases parsePubkeyOr cmint "Invalid pubkey format for collection mint" with
      | error e => rfl
      | ok y6 =>
      dsimp only
      cases resolveCollectionMetadata y6 cmeta with
      | error e => rfl
      | ok y7 =>
      dsimp only
      cases resolveCollectionMasterEdition y6 cedition with
      | error e => rfl
      | ok y8 =>
      dsimp only
      cases em : to_rust_metadata_args args with
      | error e => rfl
      | ok m => exact absurd em (hnok m)

/-- Witness for C5 at a concrete metadata request whose use_method is 5. -/
theorem c5_use_method_mapping_witness :
    ((⟨"n", "s", "u", 0, false, true, none, [], none, some ⟨5, 2, 7⟩⟩ :
        MetadataArgsStruct).uses = some ⟨5, 2, 7⟩) ∧
    (((5 : Nat) = 0 →
      to_rust_uses (⟨"n", "s", "u", 0, false, true, none, [], none,
          some ⟨5, 2, 7⟩⟩ : MetadataArgsStruct).uses
        = .ok (some ⟨.Burn, 2, 7⟩)) ∧
    ((5 : Nat) = 1 →
      to_rust_uses (⟨"n", "s", "u", 0, false, true, none, [], none,
          some ⟨5, 2, 7⟩⟩ : MetadataArgsStruct).uses
        = .ok (some ⟨.Multiple, 2, 7⟩)) ∧
    ((5 : Nat) = 2 →
      to_rust_uses (⟨"n", "s", "u", 0, false, true, none, [], none,
          some ⟨5, 2, 7⟩⟩ : MetadataArgsStruct).uses
        = .ok (some ⟨.Single, 2, 7⟩)) ∧
    ((5 : Nat) ≠ 0 → (5 : Nat) ≠ 1 → (5 : Nat) ≠ 2 →
      to_rust_uses (⟨"n", "s", "u", 0, false, true, none, [], none,
          some ⟨5, 2, 7⟩⟩ : MetadataArgsStruct).uses
        = .error "Invalid use method" ∧
      (∀ m, to_rust_metadata_args
          (⟨"n", "s", "u", 0, false, true, none, [], none, some ⟨5, 2, 7⟩⟩ :
            MetadataArgsStruct) ≠ .ok m) ∧
      (∀ ta lo ld mt payer bh,
        (mint_v1_ix ta lo ld mt payer
          (⟨"n", "s", "u", 0, false, true, none, [], none, some ⟨5, 2, 7⟩⟩ :
            MetadataArgsStruct) bh).isOk = false) ∧
      (∀ ta lo ld mt payer ca cmint cmeta cedition bh,
        (mint_to_collection_v1_ix ta lo ld mt payer ca cmint cmeta cedition
          (⟨"n", "s", "u", 0, false, true, none, [], none, some ⟨5, 2, 7⟩⟩ :
            MetadataArgsStruct) bh).isOk = false))) :=
  ⟨rfl,
    c5_use_method_mapping
      (⟨"n", "s", "u", 0, false, true, none, [], none, some ⟨5, 2, 7⟩⟩ :
        MetadataArgsStruct) ⟨5, 2, 7⟩ rfl⟩

/-- C6: every successfully converted metadata request has token_standard fixed
to Some NonFungible and token_program_version fixed to Original, independent of
any host input. -/
theorem c6_fixed_token_standard_and_version (args : MetadataArgsStruct)
    (m : MetadataArgs) (h : to_rust_metadata_args args = .ok m) :
    m.token_standard = some .NonFungible ∧
    m.token_program_version = .Original := by
  unfold to_rust_metadata_args at h
  cases e1 : to_rust_creators args.creators with
  | error e => rw [e1] at h; exact Except.noConfusion h
  | ok cs =>
    rw [e1] at h
    cases e2 : to_rust_collection args.collection with
    | error e => rw [e2] at h; exact Except.noConfusion h
    | ok col =>
      rw [e2] at h
      cases e3 : to_rust_uses args.uses with
      | error e => rw [e3] at h; exact Except.noConfusion h
      | ok us =>
        rw [e3] at h
        injection h with h2
        subst h2
        exact ⟨rfl, rfl⟩

/-- Witness for C6 at a concrete metadata request. -/
theorem c6_fixed_token_standard_and_version_witness :
    to_rust_metadata_args
        (⟨"n", "s", "u", 9, true, false, some 4, [], none, none⟩ :
          MetadataArgsStruct)
      = .ok ⟨"n", "s", "u", 9, true, false, some 4, [], none, none,
          .Original, some .NonFungible⟩ ∧
    ((⟨"n", "s", "u", 9, true, false, some 4, [], none, none,
        .Original, some .NonFungible⟩ : MetadataArgs).token_standard
      = some .NonFungible ∧
    (⟨"n", "s", "u", 9, true, false, some 4, [], none, none,
        .Original, some .NonFungible⟩ : MetadataArgs).token_program_version
      = .Original) :=
  ⟨by decide,
    c6_fixed_token_standard_and_version
      (⟨"n", "s", "u", 9, true, false, some 4, [], none, none⟩ :
        MetadataArgsStruct)
      ⟨"n", "s", "u", 9, true, false, some 4, [], none, none,
        .Original, some .NonFungible⟩ (by decide)⟩

/-- to_rust_creators succeeds exactly by parsing each creator address in order
and copying verified and share unchanged. -/
theorem to_rust_creators_ok (cs : List CreatorStruct) (rcs : List Creator)
    (h : to_rust_creators cs = .ok rcs) :
    List.Forall₂ (fun (c : CreatorStruct) (rc : Creator) =>
      pubkeyFromStr c.address = some rc.address ∧ rc.verified = c.verified ∧
      rc.share = c.share) cs rcs := by
  induction cs generalizing rcs with
  | nil =>
    simp only [to_rust_creators] at h
    cases h
    exact List.Forall₂.nil
  | cons c cs ih =>
    simp only [to_rust_creators, to_rust_creator] at h
    cases hp : pubkeyFromStr c.address with
    | none => rw [hp] at h; cases h
    | some pk =>
      rw [hp] at h
      cases hr : to_rust_creators cs with
      | error e => rw [hr] at h; cases h
      | ok rest =>
        rw [hr] at h
        cases h
        exact List.Forall₂.cons ⟨hp, rfl, rfl⟩ (ih rest hr)

/-- A creator entry with an unparseable address makes the whole creator-list
conversion fail with the creator invalid-address message. -/
theorem to_rust_creators_bad (cs : List CreatorStruct)
    (h : ∃ c ∈ cs, pubkeyFromStr c.address = none) :
    to_rust_creators cs = .error "Invalid pubkey format for creator" := by
  induction cs with
  | nil => obtain ⟨c, hc, _⟩ := h; cases hc
  | cons c cs ih =>
    obtain ⟨c0, hc0, hbad⟩ := h
    rcases List.mem_cons.mp hc0 with rfl | hmem
    · simp [to_rust_creators, to_rust_creator, hbad]
    · simp only [to_rust_creators, to_rust_creator]
      cases hp : pubkeyFromStr c.address with
      | none => rfl
      | some pk => rw [ih ⟨c0, hmem, hbad⟩]

/-- Every failure of the creator-list conversion carries the creator
invalid-address message. -/
theorem to_rust_creators_error_msg (cs : List CreatorStruct) (e : String)
    (h : to_rust_creators cs = .error e) :
    e = "Invalid pubkey format for creator" := by
  induction cs generalizing e with
  | nil => simp only [to_rust_creators] at h; cases h
  | cons c cs ih =>
    simp only [to_rust_creators, to_rust_creator] at h
    cases hp : pubkeyFromStr c.address with
    | none => rw [hp] at h; cases h; rfl
    | some pk =>
      rw [hp] at h
      cases hr : to_rust_creators cs with
      | error er => rw [hr] at h; cases h; exact ih _ hr
      | ok rest => rw [hr] at h; cases h

/-- C10: a successful metadata conversion copies every host field unchanged
(name, symbol, uri, royalty basis points, flags, edition nonce, each creator's
verified flag and share with the list order and length kept, the collection's
verified flag with its parsed key, and the uses counts), and any creator or
collection entry with an unparseable address makes the whole conversion fail
with an invalid-address error. -/
theorem c10_metadata_fields_copied (args : MetadataArgsStruct) :
    (∀ m, to_rust_metadata_args args = .ok m →
      m.name = args.name ∧ m.symbol = args.symbol ∧ m.uri = args.uri ∧
      m.seller_fee_basis_points = args.seller_fee_basis_points ∧
      m.primary_sale_happened = args.primary_sale_happened ∧
      m.is_mutable = args.is_mutable ∧
      m.edition_nonce = args.edition_nonce ∧
      List.Forall₂ (fun (c : CreatorStruct) (rc : Creator) =>
        pubkeyFromStr c.address = some rc.address ∧ rc.verified = c.verified ∧
        rc.share = c.share) args.creators m.creators ∧
      (args.collection = none → m.collection = none) ∧
      (∀ col, args.collection = some col →
        ∃ k, pubkeyFromStr col.key = some k ∧
          m.collection = some ⟨col.verified, k⟩) ∧
      (args.uses = none → m.uses = none) ∧
      (∀ u, args.uses = some u →
        ∃ um, m.uses = some ⟨um, u.remaining, u.total⟩)) ∧
    (((∃ c ∈ args.creators, pubkeyFromStr c.address = none) ∨
      (∃ col, args.collection = some col ∧ pubkeyFromStr col.key = none)) →
      to_rust_metadata_args args = .error "Invalid pubkey format for creator" ∨
      to_rust_metadata_args args
        = .error "Invalid pubkey format for collection") := by
  constructor
  · intro m h
    unfold to_rust_metadata_args at h
    cases e1 : to_rust_creators args.creators with
    | error e => rw [e1] at h; exact Except.noConfusion h
    | ok cs =>
      rw [e1] at h
      cases e2 : to_rust_collection args.collection with
      | error e => rw [e2] at h; exact Except.noConfusion h
      | ok col =>
        rw [e2] at h
        cases e3 : to_rust_uses args.uses with
        | error e => rw [e3] at h; exact Except.noConfusion h
        | ok us =>
          rw [e3] at h
          injection h with h2
          subst h2
          refine ⟨rfl, rfl, rfl, rfl, rfl, rfl, rfl,
            to_rust_creators_ok args.creators cs e1, ?_, ?_, ?_, ?_⟩
          · intro hnone
            rw [hnone] at e2
            simp only [to_rust_collection] at e2
            cases e2
            rfl
          · intro col0 hsome
            rw [hsome] at e2
            simp only [to_rust_collection] at e2
            cases hk : pubkeyFromStr col0.key with
            | none => rw [hk] at e2; exact Except.noConfusion e2
            | some k =>
              rw [hk] at e2
              cases e2
              exact ⟨k, rfl, rfl⟩
          · intro hnone
            rw [hnone] at e3
            simp only [to_rust_uses] at e3
            cases e3
            rfl
          · intro u hsome
            rw [hsome] at e3
            simp only [to_rust_uses] at e3
            by_cases h0 : u.use_method = 0
            · rw [h0] at e3; cases e3; exact ⟨.Burn, rfl⟩
            · by_cases h1 : u.use_method = 1
              · rw [h1] at e3; cases e3; exact ⟨.Multiple, rfl⟩
              · by_cases h2 : u.use_method = 2
                · rw [h2] at e3; cases e3; exact ⟨.Single, rfl⟩
                · obtain ⟨k, hk⟩ : ∃ k, u.use_method = k + 3 :=
                    ⟨u.use_method - 3, by omega⟩
                  rw [hk] at e3
                  exact Except.noConfusion e3
  · intro hbad
    rcases hbad with hcr | ⟨col, hcol, hkey⟩
    · left
      unfold to_rust_metadata_args
      rw [to_rust_creators_bad args.creators hcr]
    · cases e1 : to_rust_creators args.creators with
      | error e =>
        left
        unfold to_rust_metadata_args
        rw [e1, to_rust_creators_error_msg args.creators e e1]
      | ok cs =>
        right
        unfold to_rust_metadata_args
        rw [e1]
        have e2 : to_rust_collection args.collection
            = .error "Invalid pubkey format for collection" := by
          rw [hcol]; simp [to_rust_collection, hkey]
        rw [e2]

/-- C7: in mint_to_collection_v1_ix an empty collection_metadata string is
replaced by the token-metadata program's metadata PDA of collection_mint and an
empty collection_master_edition by its master-edition PDA; non-empty strings
are parsed as addresses instead, and a malformed non-empty string fails the
call with the matching invalid-address error.  The resolved keys are the ones
placed at positions 9 and 10 of the emitted instruction's account list. -/
theorem c7_collection_pda_fallback
    (tree_authority leaf_owner leaf_delegate merkle_tree : String)
    (payer : KeyPairInfo)
    (collection_authority collection_mint collection_metadata
      collection_master_edition : String)
    (metadata_args : MetadataArgsStruct) (recent_blockhash : String)
    (taP loP ldP mtP caP mintP : Pubkey) (kp : Keypair) (meta : MetadataArgs)
    (bhBytes : List Nat)
    (h1 : pubkeyFromStr tree_authority = some taP)
    (h2 : pubkeyFromStr leaf_owner = some loP)
    (h3 : pubkeyFromStr leaf_delegate = some ldP)
    (h4 : pubkeyFromStr merkle_tree = some mtP)
    (h5 : keypairFromBytes payer.secret = some kp)
    (h6 : pubkeyFromStr collection_authority = some caP)
    (h7 : pubkeyFromStr collection_mint = some mintP)
    (h8 : to_rust_metadata_args metadata_args = .ok meta)
    (h9 : hashFromStr recent_blockhash = some bhBytes) :
    (collection_metadata.isEmpty = true →
      resolveCollectionMetadata mintP collection_metadata
        = .ok (Metadata.find_pda mintP)) ∧
    (collection_metadata.isEmpty = false →
      resolveCollectionMetadata mintP collection_metadata
        = parsePubkeyOr collection_metadata
            "Invalid pubkey format for collection metadata") ∧
    (collection_master_edition.isEmpty = true →
      resolveCollectionMasterEdition mintP collection_master_edition
        = .ok (MasterEdition.find_pda mintP)) ∧
    (collection_master_edition.isEmpty = false →
      resolveCollectionMasterEdition mintP collection_master_edition
        = parsePubkeyOr collection_master_edition
            "Invalid pubkey format for collection master edition") ∧
    (∀ e, resolveCollectionMetadata mintP collection_metadata = .error e →
      mint_to_collection_v1_ix tree_authority leaf_owner leaf_delegate
          merkle_tree payer collection_authority collection_mint
          collection_metadata collection_master_edition metadata_args
          recent_blockhash
        = .error e) ∧
    (∀ cm e, resolveCollectionMetadata mintP collection_metadata = .ok cm →
      resolveCollectionMasterEdition mintP collection_master_edition
        = .error e →
      mint_to_collection_v1_ix tree_authority leaf_owner leaf_delegate
          merkle_tree payer collection_authority collection_mint
          collection_metadata collection_master_edition metadata_args
          recent_blockhash
        = .error e) ∧
    (∀ cm ce, resolveCollectionMetadata mintP collection_metadata = .ok cm →
      resolveCollectionMasterEdition mintP collection_master_edition = .ok ce →
      (firstInstruction (mint_to_collection_v1_ix tree_authority leaf_owner
          leaf_delegate merkle_tree payer collection_authority collection_mint
          collection_metadata collection_master_edition metadata_args
          recent_blockhash)).map (fun ix => ix.accounts[9]?)
        = some (some (AccountMeta.new cm false)) ∧
      (firstInstruction (mint_to_collection_v1_ix tree_authority leaf_owner
          leaf_delegate merkle_tree payer collection_authority collection_mint
          collection_metadata collection_master_edition metadata_args
          recent_blockhash)).map (fun ix => ix.accounts[10]?)
        = some (some (AccountMeta.new_readonly ce false))) := by
  refine ⟨?_, ?_, ?_, ?_, ?_, ?_, ?_⟩
  · intro he; simp [resolveCollectionMetadata, he]
  · intro he; simp [resolveCollectionMetadata, he]
  · intro he; simp [resolveCollectionMasterEdition, he]
  · intro he; simp [resolveCollectionMasterEdition, he]
  · intro e he
    simp [mint_to_collection_v1_ix, parsePubkeyOr, parseKeypairOr,
      h1, h2, h3, h4, h5, h6, h7, he]
  · intro cm e hcm he
    simp [mint_to_collection_v1_ix, parsePubkeyOr, parseKeypairOr,
      h1, h2, h3, h4, h5, h6, h7, hcm, he]
  · intro cm ce hcm hce
    constructor <;>
      simp [mint_to_collection_v1_ix, parsePubkeyOr, parseKeypairOr,
        parseHashOr, h1, h2, h3, h4, h5, h6, h7, hcm, hce, h8, h9,
        firstInstruction, MintToCollectionV1.instruction,
        AccountMeta.new, AccountMeta.new_readonly,
        Transaction.new_signed_with_payer]

/-- Witness for C7 at a concrete call with empty collection_metadata and
collection_master_edition strings. -/
theorem c7_collection_pda_fallback_witness :
    (pubkeyFromStr onesAddr = some (Pubkey.ofBytes zeros32) ∧
      keypairFromBytes zeroKeyInfo.secret = some ⟨List.replicate 64 0⟩ ∧
      to_rust_metadata_args
          (⟨"n", "s", "u", 0, false, true, none, [], none, none⟩ :
            MetadataArgsStruct)
        = .ok ⟨"n", "s", "u", 0, false, true, none, [], none, none,
            .Original, some .NonFungible⟩ ∧
      hashFromStr onesAddr = some zeros32) ∧
    ((String.isEmpty "" = true →
      resolveCollectionMetadata (Pubkey.ofBytes zeros32) ""
        = .ok (Metadata.find_pda (Pubkey.ofBytes zeros32))) ∧
    (String.isEmpty "" = false →
      resolveCollectionMetadata (Pubkey.ofBytes zeros32) ""
        = parsePubkeyOr "" "Invalid pubkey format for collection metadata") ∧
    (String.isEmpty "" = true →
      resolveCollectionMasterEdition (Pubkey.ofBytes zeros32) ""
        = .ok (MasterEdition.find_pda (Pubkey.ofBytes zeros32))) ∧
    (String.isEmpty "" = false →
      resolveCollectionMasterEdition (Pubkey.ofBytes zeros32) ""
        = parsePubkeyOr ""
            "Invalid pubkey format for collection master edition") ∧
    (∀ e, resolveCollectionMetadata (Pubkey.ofBytes zeros32) "" = .error e →
      mint_to_collection_v1_ix onesAddr onesAddr onesAddr onesAddr zeroKeyInfo
          onesAddr onesAddr "" ""
          (⟨"n", "s", "u", 0, false, true, none, [], none, none⟩ :
            MetadataArgsStruct) onesAddr
        = .error e) ∧
    (∀ cm e, resolveCollectionMetadata (Pubkey.ofBytes zeros32) "" = .ok cm →
      resolveCollectionMasterEdition (Pubkey.ofBytes zeros32) "" = .error e →
      mint_to_collection_v1_ix onesAddr onesAddr onesAddr onesAddr zeroKeyInfo
          onesAddr onesAddr "" ""
          (⟨"n", "s", "u", 0, false, true, none, [], none, none⟩ :
            MetadataArgsStruct) onesAddr
        = .error e) ∧
    (∀ cm ce, resolveCollectionMetadata (Pubkey.ofBytes zeros32) "" = .ok cm →
      resolveCollectionMasterEdition (Pubkey.ofBytes zeros32) "" = .ok ce →
      (firstInstruction (mint_to_collection_v1_ix onesAddr onesAddr onesAddr
          onesAddr zeroKeyInfo onesAddr onesAddr "" ""
          (⟨"n", "s", "u", 0, false, true, none, [], none, none⟩ :
            MetadataArgsStruct) onesAddr)).map (fun ix => ix.accounts[9]?)
        = some (some (AccountMeta.new cm false)) ∧
      (firstInstruction (mint_to_collection_v1_ix onesAddr onesAddr onesAddr
          onesAddr zeroKeyInfo onesAddr onesAddr "" ""
          (⟨"n", "s", "u", 0, false, true, none, [], none, none⟩ :
            MetadataArgsStruct) onesAddr)).map (fun ix => ix.accounts[10]?)
        = some (some (AccountMeta.new_readonly ce false)))) :=
  ⟨⟨by decide, by decide, by decide, by decide⟩,
    c7_collection_pda_fallback onesAddr onesAddr onesAddr onesAddr zeroKeyInfo
      onesAddr onesAddr "" ""
      (⟨"n", "s", "u", 0, false, true, none, [], none, none⟩ :
        MetadataArgsStruct) onesAddr
      (Pubkey.ofBytes zeros32) (Pubkey.ofBytes zeros32) (Pubkey.ofBytes zeros32)
      (Pubkey.ofBytes zeros32) (Pubkey.ofBytes zeros32) (Pubkey.ofBytes zeros32)
      ⟨List.replicate 64 0⟩
      ⟨"n", "s", "u", 0, false, true, none, [], none, none,
        .Original, some .NonFungible⟩ zeros32
      (by decide) (by decide) (by decide) (by decide) (by decide) (by decide)
      (by decide) (by decide) (by decide)⟩

/-- C9: get_tree_authority_pda_address is deterministic and pure — equal input
strings always give equal results, and the result is a function of the parse
of the input alone: the tree-config PDA of the parsed key on success, the
merkle-tree invalid-address error on malformed input. -/
theorem c9_get_tree_authority_deterministic (s t : String) (h : s = t) :
    get_tree_authority_pda_address s = get_tree_authority_pda_address t ∧
    (pubkeyFromStr s = none →
      get_tree_authority_pda_address s
        = .error "Invalid pubkey format for merkle tree") ∧
    (∀ pk, pubkeyFromStr s = some pk →
      get_tree_authority_pda_address s = .ok (TreeConfig.find_pda pk)) := by
  subst h
  refine ⟨rfl, ?_, ?_⟩
  · intro hn; simp [get_tree_authority_pda_address, parsePubkeyOr, hn]
  · intro pk hp; simp [get_tree_authority_pda_address, parsePubkeyOr, hp]

/-- Witness for C9 at a concrete input string. -/
theorem c9_get_tree_authority_deterministic_witness :
    onesAddr = onesAddr ∧
    (get_tree_authority_pda_address onesAddr
        = get_tree_authority_pda_address onesAddr ∧
      (pubkeyFromStr onesAddr = none →
        get_tree_authority_pda_address onesAddr
          = .error "Invalid pubkey format for merkle tree") ∧
      (∀ pk, pubkeyFromStr onesAddr = some pk →
        get_tree_authority_pda_address onesAddr
          = .ok (TreeConfig.find_pda pk))) :=
  ⟨rfl, c9_get_tree_authority_deterministic onesAddr onesAddr rfl⟩
